import Mathlib

/-!
Verification of the client-side Wordle board logic of the Covey.Town team
project: a shallow embedding of the board-derivation component
(`GameBoard.tsx`: `WordleLetter`, `WordleRow`, `BlankRow`, `AllRows`,
`constructBoards`, the render body) and of the transport client
(`TownsServiceClient.ts`: `unwrapOrThrowError` and the game-session
operations built on it), with theorems checking the specified properties.
-/

namespace Covey

/-! ## Data model (from `GameTypes` as used by `GameBoard.tsx`) -/

/-- A guess as delivered by the server: the guessed word (a string, split into
characters by `Array.from(guess.word)` when rendered) and the per-letter color
codes `guessResult` (tri-state integers). -/
structure Guess where
  word : String
  guessResult : List Int
deriving Repr, DecidableEq

/-- One team's state: its member player IDs and its chronological guesses. -/
structure TeamState where
  teamMembers : List String
  guesses : List Guess
deriving Repr, DecidableEq

/-- The server-owned game snapshot; a team's state is absent (`none`) before
the game starts or when the team does not exist. -/
structure GameState where
  teamOneState : Option TeamState
  teamTwoState : Option TeamState
deriving Repr, DecidableEq

/-! ## Rendered-output model

The JSX tree produced by the component is modelled by the data that the
rendering decisions put into it: each letter button becomes a `Cell` carrying
its label text and its Chakra `colorScheme` attribute (`none` when the
`colorScheme` attribute is `undefined`); a row is a `List Cell`; a board is a
`List` of rows. -/

/-- One button of the grid: a `filled` letter button (from `WordleLetter`)
with its label and optional color scheme, or a `blank` outline button
(from `BlankRow`). -/
inductive Cell where
  | filled (letter : String) (colorScheme : Option String)
  | blank
deriving Repr, DecidableEq

/-- The label of a cell's button (`none` for a blank outline button, which has
no label at all). -/
def cellLetter : Cell → Option String
  | .filled l _ => some l
  | .blank => none

/-- The `colorScheme` attribute of a cell's button (`none` for a blank button
or an `undefined` scheme). -/
def cellColor : Cell → Option String
  | .filled _ c => c
  | .blank => none

/-- The lookup `new Map([[0, 'gray'], [1, 'green'], [-1, 'yellow']])` used by
`WordleLetter`; `Map.get` on any other key yields `undefined`, modelled by
`none`. -/
def letterColorMatch (color : Int) : Option String :=
  if color = 0 then some "gray"
  else if color = 1 then some "green"
  else if color = -1 then some "yellow"
  else none

/-- `WordleLetter`: one guessed-letter button with label `letter` and
`colorScheme={letterColorMatch.get(color)}`. -/
def WordleLetter (letter : String) (color : Int) : Cell :=
  Cell.filled letter (letterColorMatch color)

/-- `WordleRow`: `guessArray.map((guess, index) => <WordleLetter
letter={showLetters ? guess : ''} color={letterColors[index]} />)`.
A JavaScript map-with-index is modelled as a map over the index range; the
cell at `index` carries label `guessArray[index]` when `showLetters` and `''`
otherwise, and color scheme `letterColorMatch` applied to
`letterColors[index]` (an out-of-range index gives `undefined`, and
`Map.get(undefined)` is `undefined`, hence the `Option.bind`). -/
def WordleRow (guessArray : List String) (letterColors : List Int)
    (showLetters : Bool) : List Cell :=
  (List.range guessArray.length).map fun index =>
    Cell.filled (if showLetters then guessArray.getD index "" else "")
      ((letterColors.get? index).bind letterColorMatch)

/-- `BlankRow`: a loop pushing 5 outline buttons. -/
def BlankRow : List Cell := List.replicate 5 Cell.blank

/-- `AllRows`: when `guessRows` is `undefined` the loop body never runs and an
empty stack is returned; otherwise rows `0..5` are `guessRows[i]` when
`guessRows.length > i` and a `BlankRow` otherwise. -/
def AllRows (guessRows : Option (List (List Cell))) : List (List Cell) :=
  match guessRows with
  | none => []
  | some rows =>
      (List.range 6).map fun i =>
        if rows.length > i then rows.getD i BlankRow else BlankRow

/-! ## Board construction (`constructBoards` inside `GameBoard`) -/

/-- `gameState.teamXState?.teamMembers.includes(playerID)`: optional chaining
gives `undefined` (falsy, modelled `false`) when the team state is absent. -/
def includesPlayer (ts : Option TeamState) (playerID : String) : Bool :=
  match ts with
  | none => false
  | some t => t.teamMembers.contains playerID

/-- The row built for one guess inside `constructBoards`:
`<WordleRow guessArray={Array.from(guess.word)} letterColors={guess.guessResult}
showLetters={...} />`. -/
def renderGuessRow (g : Guess) (showLetters : Bool) : List Cell :=
  WordleRow (g.word.data.map Char.toString) g.guessResult showLetters

/-- The `showLetters` value passed for team one's (red) rows:
`(!blueTeam) || gameover`. -/
def teamOneLetterFlag (state : GameState) (playerID : String)
    (gameover : Bool) : Bool :=
  !(includesPlayer state.teamTwoState playerID) || gameover

/-- The `showLetters` value passed for team two's (blue) rows:
`(!redTeam) || gameover`. -/
def teamTwoLetterFlag (state : GameState) (playerID : String)
    (gameover : Bool) : Bool :=
  !(includesPlayer state.teamOneState playerID) || gameover

/-- The observable pieces of the element assembled by `constructBoards`:
the status text, both boards, and the `isDisabled` attribute of the guess
input. -/
structure BoardView where
  displayText : String
  redBoard : List (List Cell)
  blueBoard : List (List Cell)
  inputDisabled : Bool
deriving Repr, DecidableEq

/-- `constructBoards(gameState)` with its two captured inputs (`playerID` and
the `gameover` prop) made explicit. `redRows`/`blueRows` are
`gameState.teamXState?.guesses?.map(...)` (absent team ⇒ `undefined`), each
guess rendered by `WordleRow` with the team's `showLetters` flag; the guess
input is `isDisabled={(!redTeam && !blueTeam)}`. -/
def constructBoards (state : GameState) (playerID : String)
    (gameover : Bool) : BoardView :=
  let redTeam := includesPlayer state.teamOneState playerID
  let blueTeam := includesPlayer state.teamTwoState playerID
  let yourTeamHeader :=
    if !redTeam && !blueTeam then "You are Spectating!" else "You are on a team!"
  let redRows := (state.teamOneState.map TeamState.guesses).map fun gs =>
    gs.map fun g => renderGuessRow g (!blueTeam || gameover)
  let blueRows := (state.teamTwoState.map TeamState.guesses).map fun gs =>
    gs.map fun g => renderGuessRow g (!redTeam || gameover)
  { displayText := if gameover then "Game Over" else yourTeamHeader
    redBoard := AllRows redRows
    blueBoard := AllRows blueRows
    inputDisabled := !redTeam && !blueTeam }

/-! ## Render loop (the body of `GameBoard`)

The component body runs on every render (activation). When
`currentConversationArea?.game` is set, it calls `getGameState(...)` —
unconditionally, with no check for an already-outstanding request — and the
`.then` callback commits the result via `setElement`, which itself schedules
another render. The fetch traffic is modelled by counting outstanding
`getGameState` requests along a trace of events. -/

/-- An event of the render loop: `activate` is one execution of the component
body with an active game (which starts a fetch); `complete` is the resolution
of one outstanding fetch (whose `.then` commits the board). -/
inductive RenderEvent where
  | activate
  | complete
deriving Repr, DecidableEq

/-- Outstanding-fetch count after one event: an activation always issues a new
`getGameState` request (the source has no in-flight guard), a completion
resolves one. -/
def renderStep (inFlight : Nat) : RenderEvent → Nat
  | .activate => inFlight + 1
  | .complete => inFlight - 1

/-- Outstanding fetches after a trace of render-loop events, starting idle. -/
def inFlightAfter (events : List RenderEvent) : Nat :=
  events.foldl renderStep 0

/-! ## Transport client (`TownsServiceClient.ts`) -/

/-- `ResponseEnvelope<T>`: the uniform wrapper of every server response. -/
structure ResponseEnvelope (T : Type) where
  isOK : Bool
  message : Option String
  response : Option T
deriving Repr, DecidableEq

/-- The failure surfaced by the client: the `Error` thrown for a failed
envelope (carrying its formatted message), or the `assert` failure on a
missing payload. -/
inductive ClientFailure where
  | requestError (message : String)
  | assertionFailure
deriving Repr, DecidableEq

/-- `unwrapOrThrowError(response, ignoreResponse = false)`: when `isOK`, return
`{} as T` (modelled `none`, the payload is discarded) if `ignoreResponse`, else
`assert(response.data.response)` and return the payload; when not `isOK`, throw
`` `Error processing request: ${response.data.message}` `` (an absent message
field interpolates as the string `undefined`). -/
def unwrapOrThrowError {T : Type} (env : ResponseEnvelope T)
    (ignoreResponse : Bool) : Except ClientFailure (Option T) :=
  if env.isOK then
    if ignoreResponse then Except.ok none
    else
      match env.response with
      | some r => Except.ok (some r)
      | none => Except.error ClientFailure.assertionFailure
  else
    Except.error (ClientFailure.requestError
      ("Error processing request: " ++
        match env.message with
        | some m => m
        | none => "undefined"))

/-- The unwrap step of `createGame`: `unwrapOrThrowError(responseWrapper)` with
the default `ignoreResponse = false`. -/
def createGame {T : Type} (env : ResponseEnvelope T) :
    Except ClientFailure (Option T) :=
  unwrapOrThrowError env false

/-- The unwrap step of `startGame` (default `ignoreResponse = false`). -/
def startGame {T : Type} (env : ResponseEnvelope T) :
    Except ClientFailure (Option T) :=
  unwrapOrThrowError env false

/-- The unwrap step of `addPlayerToGameTeam` (default
`ignoreResponse = false`). -/
def addPlayerToGameTeam {T : Type} (env : ResponseEnvelope T) :
    Except ClientFailure (Option T) :=
  unwrapOrThrowError env false

/-- The unwrap step of `removePlayerFromGameTeam` (default
`ignoreResponse = false`). -/
def removePlayerFromGameTeam {T : Type} (env : ResponseEnvelope T) :
    Except ClientFailure (Option T) :=
  unwrapOrThrowError env false

/-- The unwrap step of `inputGameAction` (default `ignoreResponse = false`). -/
def inputGameAction {T : Type} (env : ResponseEnvelope T) :
    Except ClientFailure (Option T) :=
  unwrapOrThrowError env false

/-- The unwrap step of `updateTown`, which does pass `ignoreResponse = true` —
the contrast case for the game-session operations. -/
def updateTown {T : Type} (env : ResponseEnvelope T) :
    Except ClientFailure (Option T) :=
  unwrapOrThrowError env true

/-! ## Display categories

The three Chakra color schemes used by the board, one per Wordle display
category: yellow marks a letter present elsewhere in the target word
(displaced), gray a letter absent from it, green a letter correct in its
position. -/

/-- Scheme rendered for a displaced-match letter. -/
def displacedScheme : String := "yellow"

/-- Scheme rendered for an absent letter. -/
def absentScheme : String := "gray"

/-- Scheme rendered for an exact-match letter. -/
def correctScheme : String := "green"

/-! ## Helper lemmas -/

/-- Reading every index of a list back in order reproduces the list. -/
lemma map_getD_range {α : Type} (l : List α) (d : α) :
    (List.range l.length).map (fun i => l.getD i d) = l := by
  induction l with
  | nil => rfl
  | cons a t ih =>
    rw [List.length_cons, List.range_succ_eq_map, List.map_cons, List.map_map]
    have hc : ((fun i => (a :: t).getD i d) ∘ Nat.succ) = fun i => t.getD i d := by
      funext i
      rfl
    rw [hc, ih]
    rfl

/-- The labels of a `WordleRow`: the guessed letters when `showLetters`, empty
strings otherwise. -/
lemma wordleRow_map_cellLetter (arr : List String) (colors : List Int)
    (b : Bool) :
    (WordleRow arr colors b).map cellLetter
      = arr.map fun s => some (if b then s else "") := by
  unfold WordleRow
  rw [List.map_map]
  cases b with
  | false =>
    have hc : (cellLetter ∘ fun index =>
        Cell.filled (if false then arr.getD index "" else "")
          ((colors.get? index).bind letterColorMatch))
        = fun _ => some "" := by
      funext i
      rfl
    rw [hc]
    simp [List.map_const', List.length_range]
  | true =>
    have hc : (cellLetter ∘ fun index =>
        Cell.filled (if true then arr.getD index "" else "")
          ((colors.get? index).bind letterColorMatch))
        = (fun i => some (arr.getD i "")) := by
      funext i
      rfl
    rw [hc]
    calc (List.range arr.length).map (fun i => some (arr.getD i ""))
        = ((List.range arr.length).map (fun i => arr.getD i "")).map some := by
          rw [List.map_map]
          rfl
      _ = arr.map some := by rw [map_getD_range]
      _ = arr.map fun s => some (if true then s else "") := rfl

/-- The color schemes of a `WordleRow` do not depend on `showLetters`. -/
lemma wordleRow_map_cellColor (arr : List String) (colors : List Int)
    (b : Bool) :
    (WordleRow arr colors b).map cellColor
      = (List.range arr.length).map fun i =>
          (colors.get? i).bind letterColorMatch := by
  unfold WordleRow
  rw [List.map_map]
  cases b with
  | false => rfl
  | true => rfl

/-- `AllRows` on an absent row list renders nothing. -/
lemma allRows_none : AllRows none = [] := rfl

/-- `AllRows` on a present row list always yields 6 rows. -/
lemma allRows_some_length (rows : List (List Cell)) :
    (AllRows (some rows)).length = 6 := by
  simp [AllRows]

/-- Row `i < 6` of `AllRows (some rows)` is `rows[i]` when it exists and a
`BlankRow` otherwise. -/
lemma allRows_some_get? (rows : List (List Cell)) (i : Nat) (hi : i < 6) :
    (AllRows (some rows)).get? i = some (rows.getD i BlankRow) := by
  unfold AllRows
  rw [List.get?_map, List.get?_range hi, Option.map_some']
  by_cases h : rows.length > i
  · rw [if_pos h]
  · rw [if_neg h, List.getD_eq_default _ _ (Nat.le_of_not_lt h)]

/-- The red board is `AllRows` of team one's guesses rendered with team one's
`showLetters` flag. -/
lemma constructBoards_redBoard (state : GameState) (pid : String) (go : Bool) :
    (constructBoards state pid go).redBoard
      = AllRows ((state.teamOneState.map TeamState.guesses).map fun gs =>
          gs.map fun g => renderGuessRow g (teamOneLetterFlag state pid go)) :=
  rfl

/-- The blue board is `AllRows` of team two's guesses rendered with team two's
`showLetters` flag. -/
lemma constructBoards_blueBoard (state : GameState) (pid : String) (go : Bool) :
    (constructBoards state pid go).blueBoard
      = AllRows ((state.teamTwoState.map TeamState.guesses).map fun gs =>
          gs.map fun g => renderGuessRow g (teamTwoLetterFlag state pid go)) :=
  rfl

/-- Row `i < 6` of the red board when team one's state is present. -/
lemma redBoard_get? (state : GameState) (pid : String) (go : Bool)
    (ts : TeamState) (h : state.teamOneState = some ts) (i : Nat)
    (hi : i < 6) :
    (constructBoards state pid go).redBoard.get? i
      = some ((ts.guesses.map fun g =>
          renderGuessRow g (teamOneLetterFlag state pid go)).getD i BlankRow) := by
  rw [constructBoards_redBoard, h]
  exact allRows_some_get? _ i hi

/-- Row `i < 6` of the blue board when team two's state is present. -/
lemma blueBoard_get? (state : GameState) (pid : String) (go : Bool)
    (ts : TeamState) (h : state.teamTwoState = some ts) (i : Nat)
    (hi : i < 6) :
    (constructBoards state pid go).blueBoard.get? i
      = some ((ts.guesses.map fun g =>
          renderGuessRow g (teamTwoLetterFlag state pid go)).getD i BlankRow) := by
  rw [constructBoards_blueBoard, h]
  exact allRows_some_get? _ i hi

/-! ## Concrete snapshots used for witnesses and counterexamples -/

/-- Team one of the example snapshot: members p1 and p2, two guesses. -/
def exampleTeamOne : TeamState :=
  { teamMembers := ["p1", "p2"],
    guesses := [{ word := "CRANE", guessResult := [0, 1, -1, 0, 0] },
                { word := "SAUTE", guessResult := [1, 1, 1, 1, 1] }] }

/-- Team two of the example snapshot: member p3, no guesses. -/
def exampleTeamTwo : TeamState := { teamMembers := ["p3"], guesses := [] }

/-- Snapshot with team one (members p1, p2) holding two guesses and team two
(member p3) holding none. -/
def exampleState : GameState :=
  { teamOneState := some exampleTeamOne, teamTwoState := some exampleTeamTwo }

/-- Seven guesses: one more than the 6-row maximum. -/
def overflowGuesses : List Guess :=
  [{ word := "AAAAA", guessResult := [0, 0, 0, 0, 0] },
   { word := "BBBBB", guessResult := [0, 0, 0, 0, 0] },
   { word := "CCCCC", guessResult := [0, 0, 0, 0, 0] },
   { word := "DDDDD", guessResult := [0, 0, 0, 0, 0] },
   { word := "EEEEE", guessResult := [0, 0, 0, 0, 0] },
   { word := "FFFFF", guessResult := [0, 0, 0, 0, 0] },
   { word := "GGGGG", guessResult := [1, 1, 1, 1, 1] }]

/-- Snapshot whose team one holds the seven `overflowGuesses`. -/
def overflowState : GameState :=
  { teamOneState := some { teamMembers := [], guesses := overflowGuesses },
    teamTwoState := none }

/-- The same snapshot with the seventh guess removed. -/
def truncatedState : GameState :=
  { teamOneState := some { teamMembers := [], guesses := overflowGuesses.take 6 },
    teamTwoState := none }

/-- Snapshot whose team two holds the seven `overflowGuesses`. -/
def overflowStateBlue : GameState :=
  { teamOneState := none,
    teamTwoState := some { teamMembers := [], guesses := overflowGuesses } }

/-! ## Claims -/

/-- C1: for every snapshot, observer and gameOver flag, each team's board is
its guesses rendered with that team's `showLetters` flag; the flag for team X
is true exactly when the observer is not a member of the opposing team Y or
the game is over; a shown row's labels are the guessed letters when the flag
holds and empty strings otherwise; the color schemes of a rendered row never
depend on the flag; and a spectator on neither roster gets both flags even
before game end. -/
theorem c1_visibility_policy (state : GameState) (pid : String) (go : Bool) :
    ((constructBoards state pid go).redBoard
       = AllRows ((state.teamOneState.map TeamState.guesses).map fun gs =>
           gs.map fun g => renderGuessRow g (teamOneLetterFlag state pid go)))
  ∧ ((constructBoards state pid go).blueBoard
       = AllRows ((state.teamTwoState.map TeamState.guesses).map fun gs =>
           gs.map fun g => renderGuessRow g (teamTwoLetterFlag state pid go)))
  ∧ (teamOneLetterFlag state pid go = true
       ↔ (includesPlayer state.teamTwoState pid = false ∨ go = true))
  ∧ (teamTwoLetterFlag state pid go = true
       ↔ (includesPlayer state.teamOneState pid = false ∨ go = true))
  ∧ (∀ (g : Guess) (b : Bool), (renderGuessRow g b).map cellLetter
       = g.word.data.map fun c => some (if b then c.toString else ""))
  ∧ (∀ (g : Guess) (b₁ b₂ : Bool),
       (renderGuessRow g b₁).map cellColor = (renderGuessRow g b₂).map cellColor)
  ∧ (includesPlayer state.teamOneState pid = false →
       includesPlayer state.teamTwoState pid = false →
       teamOneLetterFlag state pid go = true
         ∧ teamTwoLetterFlag state pid go = true) := by
  refine ⟨constructBoards_redBoard state pid go,
          constructBoards_blueBoard state pid go, ?_, ?_, ?_, ?_, ?_⟩
  · unfold teamOneLetterFlag
    cases h : includesPlayer state.teamTwoState pid <;> cases go <;> simp
  · unfold teamTwoLetterFlag
    cases h : includesPlayer state.teamOneState pid <;> cases go <;> simp
  · intro g b
    rw [renderGuessRow, wordleRow_map_cellLetter, List.map_map]
    rfl
  · intro g b₁ b₂
    rw [renderGuessRow, renderGuessRow, wordleRow_map_cellColor,
        wordleRow_map_cellColor]
  · intro h1 h2
    constructor
    · unfold teamOneLetterFlag
      rw [h2]
      rfl
    · unfold teamTwoLetterFlag
      rw [h1]
      rfl

/-- Witness for C1: the spectator conjunct applied to `exampleState` and the
observer "spec", on neither roster, with gameOver false. -/
theorem c1_visibility_policy_witness :
    teamOneLetterFlag exampleState "spec" false = true
      ∧ teamTwoLetterFlag exampleState "spec" false = true :=
  (c1_visibility_policy exampleState "spec" false).2.2.2.2.2.2 (by decide)
    (by decide)

/-- Snapshot with both team states absent. -/
def absentState : GameState := { teamOneState := none, teamTwoState := none }

/-- C2 counterexample: with an absent team state the derivation renders 0
rows, not the 6 blank rows the claim requires (`AllRows` of an `undefined`
row list never enters its loop). -/
theorem c2_counterexample :
    (constructBoards absentState "p" false).redBoard.length ≠ 6 := by decide

/-- C2 (amended): for each of the two teams, when that team's state is
present the derivation yields exactly 6 rows — the guess at index `i`
rendered at row `i` for any 0..6 guesses, every later row a blank row of 5
empty unfilled cells; when that team's state is absent the derivation yields
an empty board of 0 rows. -/
theorem c2_six_rows_when_present (state : GameState) (pid : String)
    (go : Bool) :
    (∀ ts : TeamState, state.teamOneState = some ts →
        (constructBoards state pid go).redBoard.length = 6
      ∧ (∀ i g, ts.guesses.get? i = some g → i < 6 →
          (constructBoards state pid go).redBoard.get? i
            = some (renderGuessRow g (teamOneLetterFlag state pid go)))
      ∧ (∀ i, ts.guesses.length ≤ i → i < 6 →
          (constructBoards state pid go).redBoard.get? i = some BlankRow))
  ∧ (∀ ts : TeamState, state.teamTwoState = some ts →
        (constructBoards state pid go).blueBoard.length = 6
      ∧ (∀ i g, ts.guesses.get? i = some g → i < 6 →
          (constructBoards state pid go).blueBoard.get? i
            = some (renderGuessRow g (teamTwoLetterFlag state pid go)))
      ∧ (∀ i, ts.guesses.length ≤ i → i < 6 →
          (constructBoards state pid go).blueBoard.get? i = some BlankRow))
  ∧ BlankRow = List.replicate 5 Cell.blank
  ∧ (state.teamOneState = none → (constructBoards state pid go).redBoard = [])
  ∧ (state.teamTwoState = none →
      (constructBoards state pid go).blueBoard = []) := by
  refine ⟨?_, ?_, rfl, ?_, ?_⟩
  · intro ts h
    refine ⟨?_, ?_, ?_⟩
    · rw [constructBoards_redBoard, h]
      exact allRows_some_length _
    · intro i g hg hi
      rw [redBoard_get? state pid go ts h i hi, List.getD_eq_getD_get?,
          List.get?_map, hg, Option.map_some', Option.getD_some]
    · intro i hlen hi
      rw [redBoard_get? state pid go ts h i hi,
          List.getD_eq_default _ _ (by rw [List.length_map]; exact hlen)]
  · intro ts h
    refine ⟨?_, ?_, ?_⟩
    · rw [constructBoards_blueBoard, h]
      exact allRows_some_length _
    · intro i g hg hi
      rw [blueBoard_get? state pid go ts h i hi, List.getD_eq_getD_get?,
          List.get?_map, hg, Option.map_some', Option.getD_some]
    · intro i hlen hi
      rw [blueBoard_get? state pid go ts h i hi,
          List.getD_eq_default _ _ (by rw [List.length_map]; exact hlen)]
  · intro hs
    rw [constructBoards_redBoard, hs]
    rfl
  · intro hs
    rw [constructBoards_blueBoard, hs]
    rfl

/-- Witness for C2's amended theorem at `exampleState` (team one holds 2
guesses, team two 0): both boards have 6 rows, red row 3 and blue row 0 are
blank. -/
theorem c2_six_rows_when_present_witness :
    (constructBoards exampleState "p3" false).redBoard.length = 6
  ∧ (constructBoards exampleState "p3" false).redBoard.get? 3
      = some BlankRow
  ∧ (constructBoards exampleState "p3" false).blueBoard.length = 6
  ∧ (constructBoards exampleState "p3" false).blueBoard.get? 0
      = some BlankRow :=
  ⟨((c2_six_rows_when_present exampleState "p3" false).1 exampleTeamOne rfl).1,
   ((c2_six_rows_when_present exampleState "p3" false).1 exampleTeamOne
      rfl).2.2 3 (by decide) (by decide),
   ((c2_six_rows_when_present exampleState "p3" false).2.1 exampleTeamTwo
      rfl).1,
   ((c2_six_rows_when_present exampleState "p3" false).2.1 exampleTeamTwo
      rfl).2.2 0 (by decide) (by decide)⟩

/-- C4: on the tri-state domain the color mapping gives -1 the
displaced-match scheme, 0 the absent scheme and 1 the exact-match scheme, and
every rendered letter cell carries exactly the scheme the mapping assigns to
its code. -/
theorem c4_color_mapping_total (c : Int) (h : c = -1 ∨ c = 0 ∨ c = 1) :
    letterColorMatch c
      = some (if c = -1 then displacedScheme
              else if c = 0 then absentScheme else correctScheme)
  ∧ (∀ letter : String,
      WordleLetter letter c = Cell.filled letter (letterColorMatch c)) := by
  refine ⟨?_, fun letter => rfl⟩
  rcases h with h | h | h <;> subst h <;> rfl

/-- Witness for C4 at code -1: the displaced-match scheme. -/
theorem c4_color_mapping_total_witness :
    letterColorMatch (-1)
      = some (if (-1 : Int) = -1 then displacedScheme
              else if (-1 : Int) = 0 then absentScheme else correctScheme)
  ∧ (∀ letter : String,
      WordleLetter letter (-1) = Cell.filled letter (letterColorMatch (-1))) :=
  c4_color_mapping_total (-1) (Or.inl rfl)

/-- C5 counterexample: at the out-of-domain code 2 the lookup yields
`undefined` (`none`) and the cell is rendered with no color scheme — the code
silently defaults instead of raising a contract violation. -/
theorem c5_counterexample :
    letterColorMatch 2 = none
  ∧ WordleLetter "X" 2 = Cell.filled "X" none :=
  ⟨rfl, rfl⟩

/-- C5 (amended): for every color code outside {-1, 0, 1} the mapping returns
no display category at all (`Map.get` yields `undefined`, passed through as
the cell's missing `colorScheme`); no defect is reported. -/
theorem c5_out_of_domain_undefined (c : Int) (h1 : c ≠ -1) (h2 : c ≠ 0)
    (h3 : c ≠ 1) :
    letterColorMatch c = none
  ∧ (∀ letter : String, WordleLetter letter c = Cell.filled letter none) := by
  have hm : letterColorMatch c = none := by
    unfold letterColorMatch
    rw [if_neg h2, if_neg h3, if_neg h1]
  exact ⟨hm, fun letter => by rw [WordleLetter, hm]⟩

/-- Witness for C5's amended theorem at code 7. -/
theorem c5_out_of_domain_undefined_witness :
    letterColorMatch 7 = none
  ∧ (∀ letter : String, WordleLetter letter 7 = Cell.filled letter none) :=
  c5_out_of_domain_undefined 7 (by decide) (by decide) (by decide)

/-- C6 counterexample: a team holding 7 guesses renders to exactly the same
6-row board as the same team truncated to its first 6 guesses — the seventh
guess is silently dropped, with no loud failure and no grid overflow. -/
theorem c6_counterexample :
    (constructBoards overflowState "p" false).redBoard
      = (constructBoards truncatedState "p" false).redBoard
  ∧ (constructBoards overflowState "p" false).redBoard.length = 6 :=
  ⟨rfl, rfl⟩

/-- C6 (amended): for each of the two teams, board derivation preserves
submission order — row `i` shows the i-th submitted guess (oldest first) —
and with more than 6 guesses it silently renders only the first 6 in the
fixed 6-row grid, dropping the rest without any failure. -/
theorem c6_order_preserved (state : GameState) (pid : String) (go : Bool) :
    (∀ ts : TeamState, state.teamOneState = some ts →
        (∀ i g, ts.guesses.get? i = some g → i < 6 →
          (constructBoards state pid go).redBoard.get? i
            = some (renderGuessRow g (teamOneLetterFlag state pid go)))
      ∧ (constructBoards state pid go).redBoard.length = 6)
  ∧ (∀ ts : TeamState, state.teamTwoState = some ts →
        (∀ i g, ts.guesses.get? i = some g → i < 6 →
          (constructBoards state pid go).blueBoard.get? i
            = some (renderGuessRow g (teamTwoLetterFlag state pid go)))
      ∧ (constructBoards state pid go).blueBoard.length = 6) := by
  constructor
  · intro ts h
    constructor
    · intro i g hg hi
      rw [redBoard_get? state pid go ts h i hi, List.getD_eq_getD_get?,
          List.get?_map, hg, Option.map_some', Option.getD_some]
    · rw [constructBoards_redBoard, h]
      exact allRows_some_length _
  · intro ts h
    constructor
    · intro i g hg hi
      rw [blueBoard_get? state pid go ts h i hi, List.getD_eq_getD_get?,
          List.get?_map, hg, Option.map_some', Option.getD_some]
    · rw [constructBoards_blueBoard, h]
      exact allRows_some_length _

/-- Witness for C6's amended theorem at `overflowState` and
`overflowStateBlue` (7 guesses each): on both boards row 1 shows the second
submitted guess and the grid holds 6 rows. -/
theorem c6_order_preserved_witness :
    ((constructBoards overflowState "p" false).redBoard.get? 1
      = some (renderGuessRow { word := "BBBBB", guessResult := [0, 0, 0, 0, 0] }
          (teamOneLetterFlag overflowState "p" false)))
  ∧ (constructBoards overflowState "p" false).redBoard.length = 6
  ∧ ((constructBoards overflowStateBlue "p" false).blueBoard.get? 1
      = some (renderGuessRow { word := "BBBBB", guessResult := [0, 0, 0, 0, 0] }
          (teamTwoLetterFlag overflowStateBlue "p" false)))
  ∧ (constructBoards overflowStateBlue "p" false).blueBoard.length = 6 :=
  ⟨((c6_order_preserved overflowState "p" false).1
      { teamMembers := [], guesses := overflowGuesses } rfl).1 1 _ (by decide)
      (by decide),
   ((c6_order_preserved overflowState "p" false).1
      { teamMembers := [], guesses := overflowGuesses } rfl).2,
   ((c6_order_preserved overflowStateBlue "p" false).2
      { teamMembers := [], guesses := overflowGuesses } rfl).1 1 _ (by decide)
      (by decide),
   ((c6_order_preserved overflowStateBlue "p" false).2
      { teamMembers := [], guesses := overflowGuesses } rfl).2⟩

/-- C7: the render body fetches unconditionally on every activation — two
activations while the first fetch is still outstanding leave two concurrent
`getGameState` requests in flight, violating the at-most-one bound. -/
theorem c7_fetch_storm :
    1 < inFlightAfter [RenderEvent.activate, RenderEvent.activate]
  ∧ inFlightAfter [RenderEvent.activate, RenderEvent.activate] = 2 :=
  ⟨by decide, rfl⟩

/-- C8: board derivation is a pure function of the snapshot, the observer and
the gameOver flag — equal inputs give identical views. -/
theorem c8_derivation_deterministic (s₁ s₂ : GameState) (pid : String)
    (go : Bool) (h : s₁ = s₂) :
    constructBoards s₁ pid go = constructBoards s₂ pid go := by
  rw [h]

/-- Witness for C8 at `exampleState`. -/
theorem c8_derivation_deterministic_witness :
    constructBoards exampleState "p1" false
      = constructBoards exampleState "p1" false :=
  c8_derivation_deterministic exampleState exampleState "p1" false rfl

/-- C3 counterexample: for the failure envelope `{isOK:false, message:"m"}`
the thrown error's message is the template-formatted string
"Error processing request: m", which is not the envelope's message field
"m" itself. -/
theorem c3_counterexample :
    unwrapOrThrowError
        ({ isOK := false, message := some "m", response := none } :
          ResponseEnvelope Nat) false
      = Except.error
          (ClientFailure.requestError "Error processing request: m")
  ∧ ClientFailure.requestError "Error processing request: m"
      ≠ ClientFailure.requestError "m" :=
  ⟨rfl, by decide⟩

/-- C3 (amended): the unwrap returns the payload of a success envelope; a
failure envelope with message m throws an error whose message is
"Error processing request: " followed by m (so it contains m but is not m
itself); a success envelope with a missing payload fails the presence
assertion instead of returning. -/
theorem c3_envelope_unwrap {T : Type} (x : T) (m : String) :
    (∀ env : ResponseEnvelope T, env.isOK = true → env.response = some x →
        unwrapOrThrowError env false = Except.ok (some x))
  ∧ (unwrapOrThrowError
        ({ isOK := false, message := some m, response := none } :
          ResponseEnvelope T) false
        = Except.error (ClientFailure.requestError
            ("Error processing request: " ++ m)))
  ∧ (∀ env : ResponseEnvelope T, env.isOK = true → env.response = none →
        unwrapOrThrowError env false
          = Except.error ClientFailure.assertionFailure) := by
  refine ⟨?_, rfl, ?_⟩
  · intro env hok hresp
    unfold unwrapOrThrowError
    rw [hok, hresp]
    rfl
  · intro env hok hresp
    unfold unwrapOrThrowError
    rw [hok, hresp]
    rfl

/-- Witness for C3 with payload 7 and message "m". -/
theorem c3_envelope_unwrap_witness :
    (unwrapOrThrowError
        ({ isOK := true, message := none, response := some 7 } :
          ResponseEnvelope Nat) false = Except.ok (some 7))
  ∧ (unwrapOrThrowError
        ({ isOK := false, message := some "m", response := none } :
          ResponseEnvelope Nat) false
        = Except.error (ClientFailure.requestError
            ("Error processing request: " ++ "m")))
  ∧ (unwrapOrThrowError
        ({ isOK := true, message := none, response := none } :
          ResponseEnvelope Nat) false
        = Except.error ClientFailure.assertionFailure) :=
  ⟨(c3_envelope_unwrap 7 "m").1 _ rfl rfl,
   (c3_envelope_unwrap (7 : Nat) "m").2.1,
   (c3_envelope_unwrap (7 : Nat) "m").2.2 _ rfl rfl⟩

/-- C9: every acknowledgment-only game-session operation unwraps with the
default `ignoreResponse = false`, so a success envelope with no payload makes
each of them fail the presence assertion — unlike `updateTown`, which passes
`ignoreResponse = true` and succeeds while discarding the payload. -/
theorem c9_ack_ops_assert_missing_payload :
    createGame ({ isOK := true, message := none, response := none } :
        ResponseEnvelope Unit)
      = Except.error ClientFailure.assertionFailure
  ∧ startGame ({ isOK := true, message := none, response := none } :
        ResponseEnvelope Unit)
      = Except.error ClientFailure.assertionFailure
  ∧ addPlayerToGameTeam ({ isOK := true, message := none, response := none } :
        ResponseEnvelope Unit)
      = Except.error ClientFailure.assertionFailure
  ∧ removePlayerFromGameTeam
      ({ isOK := true, message := none, response := none } :
        ResponseEnvelope Unit)
      = Except.error ClientFailure.assertionFailure
  ∧ inputGameAction ({ isOK := true, message := none, response := none } :
        ResponseEnvelope Unit)
      = Except.error ClientFailure.assertionFailure
  ∧ updateTown ({ isOK := true, message := none, response := none } :
        ResponseEnvelope Unit)
      = Except.ok none :=
  ⟨rfl, rfl, rfl, rfl, rfl, rfl⟩

/-- C10: the guess input is disabled exactly when the observer belongs to
neither roster; a member of either team gets an enabled input regardless of
the gameOver flag. -/
theorem c10_input_disabled_iff_spectator (state : GameState) (pid : String)
    (go : Bool) :
    ((constructBoards state pid go).inputDisabled
       = (!(includesPlayer state.teamOneState pid)
           && !(includesPlayer state.teamTwoState pid)))
  ∧ ((constructBoards state pid go).inputDisabled = true
       ↔ (includesPlayer state.teamOneState pid = false
            ∧ includesPlayer state.teamTwoState pid = false))
  ∧ (includesPlayer state.teamOneState pid = true
        ∨ includesPlayer state.teamTwoState pid = true →
      (constructBoards state pid go).inputDisabled = false) := by
  have hd : (constructBoards state pid go).inputDisabled
      = (!(includesPlayer state.teamOneState pid)
          && !(includesPlayer state.teamTwoState pid)) := rfl
  refine ⟨hd, ?_, ?_⟩
  · rw [hd]
    cases includesPlayer state.teamOneState pid <;>
      cases includesPlayer state.teamTwoState pid <;> simp
  · intro hmem
    rw [hd]
    rcases hmem with hm | hm <;> rw [hm] <;> simp

/-- Witness for C10: "p1" is on team one of `exampleState`, so the input is
enabled. -/
theorem c10_input_disabled_iff_spectator_witness :
    (constructBoards exampleState "p1" false).inputDisabled = false :=
  (c10_input_disabled_iff_spectator exampleState "p1" false).2.2
    (Or.inl (by decide))

end Covey
